import Mathlib

/-!
Verification of the rate-limit planner (`calculateTPS` in `src/util/tps.ts`)
and of the upload-URL request handler (`lambdas/get-upload-url/main.js`)
of the image-gen-infra repository.

Numbers are modelled as exact rationals (the spec describes the inputs as
reals); JavaScript's `Number(x.toFixed(2))` becomes rounding to the nearest
multiple of 1/100 (ties away from zero upward, as ECMAScript prescribes),
and `Math.floor` becomes the integer floor.
-/

/-- JavaScript `Number(x.toFixed(2))`: round to the nearest hundredth,
ties going to the larger value. -/
def toFixed2 (x : ℚ) : ℚ := ((round (100 * x) : ℤ) : ℚ) / 100

/-- Input record of `calculateTPS`.  The three optional fields of the
TypeScript interface are `Option`s; `calculateTPS` applies the defaults
15, 0 and 2 exactly as the destructuring defaults in the source do. -/
structure TPSCalculationParams where
  generationTimeSeconds : ℚ
  statusPollIntervalSeconds : ℚ
  imagesPerSession : ℚ
  averageThinkTimeSeconds : Option ℚ
  safetyFactorPercent : Option ℚ
  burstTrafficMultiplier : Option ℚ
  maxWorkers : ℚ
deriving DecidableEq

structure TPSMultipliers where
  runCallsPerSecondPerUser : ℚ
  statusCallsPerSecondPerUser : ℚ
deriving DecidableEq

structure TPSMetrics where
  statusChecksPerGeneration : ℚ
  sessionDurationSeconds : ℚ
  runCallsPerSession : ℚ
  statusCallsPerSession : ℚ
  cycleTimeSeconds : ℚ
  maxSupportedUsers : ℚ
  workerLimitedTPS : ℚ
deriving DecidableEq

structure TPSLimits where
  runTPS : ℚ
  statusTPS : ℚ
  runTPSBurst : ℚ
  statusTPSBurst : ℚ
deriving DecidableEq

structure TPSDetails where
  multipliers : TPSMultipliers
  metrics : TPSMetrics
  safetyFactor : ℚ
  burstTrafficFactor : ℚ
deriving DecidableEq

structure TPSCalculationResult where
  limits : TPSLimits
  details : TPSDetails
  inputs : TPSCalculationParams
deriving DecidableEq

/-- Direct translation of `calculateTPS` from `src/util/tps.ts`. -/
def calculateTPS (p : TPSCalculationParams) : TPSCalculationResult :=
  let generationTimeSeconds := p.generationTimeSeconds
  let statusPollIntervalSeconds := p.statusPollIntervalSeconds
  let imagesPerSession := p.imagesPerSession
  let averageThinkTimeSeconds := p.averageThinkTimeSeconds.getD 15
  let safetyFactorPercent := p.safetyFactorPercent.getD 0
  let burstTrafficMultiplier := p.burstTrafficMultiplier.getD 2
  let maxWorkers := p.maxWorkers
  -- Calculate base metrics
  let statusChecksPerGeneration :=
    generationTimeSeconds / statusPollIntervalSeconds
  let sessionDurationSeconds := imagesPerSession * generationTimeSeconds
  -- Calculate API calls per session
  let runCallsPerSession := imagesPerSession
  let statusCallsPerSession := imagesPerSession * statusChecksPerGeneration
  -- Calculate calls per second per user
  let runCallsPerSecondPerUser :=
    runCallsPerSession / sessionDurationSeconds
  let statusCallsPerSecondPerUser :=
    statusCallsPerSession / sessionDurationSeconds
  -- Calculate worker capacity and maximum supported users
  let cycleTimeSeconds := generationTimeSeconds + averageThinkTimeSeconds
  let workerUtilizationRatio := generationTimeSeconds / cycleTimeSeconds
  let maxSupportedUsers := maxWorkers / workerUtilizationRatio
  -- Calculate worker-limited TPS
  let workerLimitedTPS := max (maxWorkers / generationTimeSeconds) 1
  -- Apply safety factor
  let safetyMultiplier := 1 + safetyFactorPercent / 100
  -- Calculate TPS based on max supported users
  let runTPS := min
    (runCallsPerSecondPerUser * maxSupportedUsers * safetyMultiplier)
    workerLimitedTPS
  let statusTPS :=
    statusCallsPerSecondPerUser * maxSupportedUsers * safetyMultiplier
  -- Calculate burst limits
  let runTPSBurst := min
    workerLimitedTPS
    (runTPS * burstTrafficMultiplier)
  let statusTPSBurst := statusTPS * burstTrafficMultiplier
  { limits :=
      { runTPS := max 1 (toFixed2 runTPS)
        statusTPS := max 1 (toFixed2 statusTPS)
        runTPSBurst := max 1 ((⌊runTPSBurst⌋ : ℚ))
        statusTPSBurst := max 1 ((⌊statusTPSBurst⌋ : ℚ)) }
    details :=
      { multipliers :=
          { runCallsPerSecondPerUser := runCallsPerSecondPerUser
            statusCallsPerSecondPerUser := statusCallsPerSecondPerUser }
        metrics :=
          { statusChecksPerGeneration := statusChecksPerGeneration
            sessionDurationSeconds := sessionDurationSeconds
            runCallsPerSession := runCallsPerSession
            statusCallsPerSession := statusCallsPerSession
            cycleTimeSeconds := cycleTimeSeconds
            maxSupportedUsers := maxSupportedUsers
            workerLimitedTPS := workerLimitedTPS }
        safetyFactor := safetyFactorPercent
        burstTrafficFactor := burstTrafficMultiplier }
    inputs :=
      { generationTimeSeconds := generationTimeSeconds
        statusPollIntervalSeconds := statusPollIntervalSeconds
        imagesPerSession := imagesPerSession
        averageThinkTimeSeconds := some averageThinkTimeSeconds
        safetyFactorPercent := some safetyFactorPercent
        burstTrafficMultiplier := some burstTrafficMultiplier
        maxWorkers := maxWorkers } }

/-- Validity domain of the planner inputs as the spec states it: positive
generation time, poll interval, images per session and worker count;
non-negative think time and safety factor; burst multiplier at least 1
(the optional fields are judged after the defaults are applied). -/
def ValidParams (p : TPSCalculationParams) : Prop :=
  0 < p.generationTimeSeconds ∧
  0 < p.statusPollIntervalSeconds ∧
  0 < p.imagesPerSession ∧
  0 < p.maxWorkers ∧
  0 ≤ p.averageThinkTimeSeconds.getD 15 ∧
  0 ≤ p.safetyFactorPercent.getD 0 ∧
  1 ≤ p.burstTrafficMultiplier.getD 2

instance (p : TPSCalculationParams) : Decidable (ValidParams p) := by
  unfold ValidParams
  infer_instance

/-! ### The upload-URL request handler, `lambdas/get-upload-url/main.js`

The handler is embedded over the outcome of the two external effects it
invokes: `JSON.parse` of the request body (which throws on malformed input,
caught by the surrounding try/catch) and `createPresignedPost` (which can
reject, also caught).  `Date.now()` is passed in as a number. -/

/-- Outcome of `JSON.parse(event.body || "{}")` followed by reading
`body.fileName` and `body.fileType`: either the parse threw, or it produced
an object whose two fields are each absent or a string. -/
inductive ParsedBody where
  | malformed : ParsedBody
  | fields (fileName : Option String) (fileType : Option String) : ParsedBody
deriving DecidableEq

/-- Outcome of `createPresignedPost`: a resolved `{url, fields}` pair or a
rejection with an error message. -/
inductive PresignOutcome where
  | ok (url : String) (fields : List (String × String)) : PresignOutcome
  | err (message : String) : PresignOutcome
deriving DecidableEq

/-- Body of the HTTP response: an error message object or the
`{url, fields, fileKey}` upload authorization. -/
inductive ResponseBody where
  | errorMessage (error : String) : ResponseBody
  | upload (url : String) (fields : List (String × String))
      (fileKey : String) : ResponseBody
deriving DecidableEq

structure HandlerResponse where
  statusCode : Nat
  body : ResponseBody
deriving DecidableEq

/-- Allow-list `ALLOWED_FILE_TYPES` of `lambdas/get-upload-url/main.js`. -/
def ALLOWED_FILE_TYPES : List String := ["image/png", "image/jpeg"]

/-- JavaScript falsiness of `body.fileName` / `body.fileType`: the field is
absent (`undefined`) or the empty string. -/
def falsyString : Option String → Bool
  | none => true
  | some s => s == ""

/-- Translation of the `handler` of `lambdas/get-upload-url/main.js`.
`now` stands for `Date.now()`; `presign` for the outcome of
`createPresignedPost`.  A thrown `JSON.parse` and a rejected presign call
both land in the catch block, which returns status 500. -/
def handler (now : Nat) (body : ParsedBody) (presign : PresignOutcome) :
    HandlerResponse :=
  match body with
  | .malformed =>
      { statusCode := 500
        body := .errorMessage "Failed to generate upload URL" }
  | .fields fileName fileType =>
      if falsyString fileName || falsyString fileType then
        { statusCode := 400
          body := .errorMessage "fileName and fileType are required" }
      else if !(ALLOWED_FILE_TYPES.contains (fileType.getD "")) then
        { statusCode := 400
          body := .errorMessage "Invalid file type. Allowed types: image/png, image/jpeg" }
      else
        match presign with
        | .ok url fields =>
            { statusCode := 200
              body := .upload url fields
                (toString now ++ "-" ++ fileName.getD "") }
        | .err _ =>
            { statusCode := 500
              body := .errorMessage "Failed to generate upload URL" }

/-- A request passes both validation checks of the handler: both fields
present and truthy, and the MIME type on the allow-list. -/
def validUploadRequest : ParsedBody → Bool
  | .malformed => false
  | .fields fileName fileType =>
      !(falsyString fileName || falsyString fileType) &&
        ALLOWED_FILE_TYPES.contains (fileType.getD "")

/-- Whether the presign call failed (the promise rejected). -/
def presignFailed : PresignOutcome → Bool
  | .ok _ _ => false
  | .err _ => true

/-- Whether the response carries an upload authorization. -/
def issuesUpload (r : HandlerResponse) : Bool :=
  match r.body with
  | .upload _ _ _ => true
  | _ => false

/-! ### Helper lemmas about `toFixed2` -/

theorem toFixed2_le_add (x : ℚ) : toFixed2 x ≤ x + 1 / 200 := by
  unfold toFixed2
  rw [round_eq]
  have h : ((⌊100 * x + 1 / 2⌋ : ℤ) : ℚ) ≤ 100 * x + 1 / 2 := Int.floor_le _
  linarith

theorem toFixed2_mono {x y : ℚ} (h : x ≤ y) : toFixed2 x ≤ toFixed2 y := by
  unfold toFixed2
  have h1 : round (100 * x) ≤ round (100 * y) := by
    rw [round_eq, round_eq]
    exact Int.floor_le_floor (by linarith)
  have h2 : ((round (100 * x) : ℤ) : ℚ) ≤ ((round (100 * y) : ℤ) : ℚ) := by
    exact_mod_cast h1
  linarith

/-! ### Unfolding lemmas for the fields of `calculateTPS` -/

theorem calculateTPS_runTPS (g s i : ℚ) (t sa b : Option ℚ) (w : ℚ) :
    (calculateTPS ⟨g, s, i, t, sa, b, w⟩).limits.runTPS =
      max 1 (toFixed2 (min
        (i / (i * g) * (w / (g / (g + t.getD 15))) * (1 + sa.getD 0 / 100))
        (max (w / g) 1))) := rfl

theorem calculateTPS_statusTPS (g s i : ℚ) (t sa b : Option ℚ) (w : ℚ) :
    (calculateTPS ⟨g, s, i, t, sa, b, w⟩).limits.statusTPS =
      max 1 (toFixed2
        (i * (g / s) / (i * g) * (w / (g / (g + t.getD 15))) *
          (1 + sa.getD 0 / 100))) := rfl

theorem calculateTPS_runTPSBurst (g s i : ℚ) (t sa b : Option ℚ) (w : ℚ) :
    (calculateTPS ⟨g, s, i, t, sa, b, w⟩).limits.runTPSBurst =
      max 1 ((⌊min (max (w / g) 1)
        ((min (i / (i * g) * (w / (g / (g + t.getD 15))) * (1 + sa.getD 0 / 100))
          (max (w / g) 1)) * b.getD 2)⌋ : ℚ)) := rfl

theorem calculateTPS_statusTPSBurst (g s i : ℚ) (t sa b : Option ℚ) (w : ℚ) :
    (calculateTPS ⟨g, s, i, t, sa, b, w⟩).limits.statusTPSBurst =
      max 1 ((⌊i * (g / s) / (i * g) * (w / (g / (g + t.getD 15))) *
        (1 + sa.getD 0 / 100) * b.getD 2⌋ : ℚ)) := rfl

theorem calculateTPS_limits_def (g s i : ℚ) (t sa b : Option ℚ) (w : ℚ) :
    (calculateTPS ⟨g, s, i, t, sa, b, w⟩).limits =
      { runTPS := max 1 (toFixed2 (min
          (i / (i * g) * (w / (g / (g + t.getD 15))) * (1 + sa.getD 0 / 100))
          (max (w / g) 1)))
        statusTPS := max 1 (toFixed2
          (i * (g / s) / (i * g) * (w / (g / (g + t.getD 15))) *
            (1 + sa.getD 0 / 100)))
        runTPSBurst := max 1 ((⌊min (max (w / g) 1)
          ((min (i / (i * g) * (w / (g / (g + t.getD 15))) * (1 + sa.getD 0 / 100))
            (max (w / g) 1)) * b.getD 2)⌋ : ℚ))
        statusTPSBurst := max 1 ((⌊i * (g / s) / (i * g) *
          (w / (g / (g + t.getD 15))) * (1 + sa.getD 0 / 100) * b.getD 2⌋ : ℚ)) } := rfl

theorem calculateTPS_workerLimitedTPS (g s i : ℚ) (t sa b : Option ℚ) (w : ℚ) :
    (calculateTPS ⟨g, s, i, t, sa, b, w⟩).details.metrics.workerLimitedTPS =
      max (w / g) 1 := rfl

theorem calculateTPS_maxSupportedUsers (g s i : ℚ) (t sa b : Option ℚ) (w : ℚ) :
    (calculateTPS ⟨g, s, i, t, sa, b, w⟩).details.metrics.maxSupportedUsers =
      w / (g / (g + t.getD 15)) := rfl

theorem calculateTPS_runPerUser (g s i : ℚ) (t sa b : Option ℚ) (w : ℚ) :
    (calculateTPS ⟨g, s, i, t, sa, b, w⟩).details.multipliers.runCallsPerSecondPerUser =
      i / (i * g) := rfl

theorem calculateTPS_statusPerUser (g s i : ℚ) (t sa b : Option ℚ) (w : ℚ) :
    (calculateTPS ⟨g, s, i, t, sa, b, w⟩).details.multipliers.statusCallsPerSecondPerUser =
      i * (g / s) / (i * g) := rfl

theorem calculateTPS_safetyFactor (g s i : ℚ) (t sa b : Option ℚ) (w : ℚ) :
    (calculateTPS ⟨g, s, i, t, sa, b, w⟩).details.safetyFactor = sa.getD 0 := rfl

/-! ### Claims -/

/-- Claim C1, as stated, is false: at generationTimeSeconds = 128,
statusPollIntervalSeconds = 1, imagesPerSession = 1, think = 0, safety = 0,
burst = 2, maxWorkers = 171 — a valid input — the two-decimal rounding lifts
the returned runTPS to 1.34, strictly above the recorded
workerLimitedTPS = 171/128 = 1.3359375. -/
theorem calculateTPS_submit_le_ceiling_cex :
    ValidParams ⟨128, 1, 1, some 0, some 0, some 2, 171⟩ ∧
    (calculateTPS ⟨128, 1, 1, some 0, some 0, some 2, 171⟩).details.metrics.workerLimitedTPS <
      (calculateTPS ⟨128, 1, 1, some 0, some 0, some 2, 171⟩).limits.runTPS := by
  constructor
  · unfold ValidParams
    norm_num
  · rw [calculateTPS_workerLimitedTPS, calculateTPS_runTPS]
    norm_num [toFixed2, round_eq]

/-- Claim C1 (amended): for every input, the returned submitBurstRate
(limits.runTPSBurst) is at most the recorded workerImposedCeiling
(details.metrics.workerLimitedTPS), and the returned submitRate
(limits.runTPS) is at most the ceiling plus 1/200, the largest amount the
two-decimal rounding can add. -/
theorem calculateTPS_submit_le_ceiling (g s i : ℚ) (t sa b : Option ℚ) (w : ℚ) :
    (calculateTPS ⟨g, s, i, t, sa, b, w⟩).limits.runTPSBurst ≤
      (calculateTPS ⟨g, s, i, t, sa, b, w⟩).details.metrics.workerLimitedTPS ∧
    (calculateTPS ⟨g, s, i, t, sa, b, w⟩).limits.runTPS ≤
      (calculateTPS ⟨g, s, i, t, sa, b, w⟩).details.metrics.workerLimitedTPS + 1 / 200 := by
  rw [calculateTPS_runTPSBurst, calculateTPS_runTPS, calculateTPS_workerLimitedTPS]
  have hW : (1 : ℚ) ≤ max (w / g) 1 := le_max_right _ _
  constructor
  · apply max_le hW
    have hfl : ((⌊min (max (w / g) 1)
        ((min (i / (i * g) * (w / (g / (g + t.getD 15))) * (1 + sa.getD 0 / 100))
          (max (w / g) 1)) * b.getD 2)⌋ : ℚ)) ≤
        min (max (w / g) 1)
          ((min (i / (i * g) * (w / (g / (g + t.getD 15))) * (1 + sa.getD 0 / 100))
            (max (w / g) 1)) * b.getD 2) := Int.floor_le _
    exact hfl.trans (min_le_left _ _)
  · apply max_le (by linarith)
    have h1 := toFixed2_le_add
      (min (i / (i * g) * (w / (g / (g + t.getD 15))) * (1 + sa.getD 0 / 100))
        (max (w / g) 1))
    have h2 : min (i / (i * g) * (w / (g / (g + t.getD 15))) * (1 + sa.getD 0 / 100))
        (max (w / g) 1) ≤ max (w / g) 1 := min_le_right _ _
    linarith

/-- Claim C2: the concrete scenario generationTimeSeconds = 30,
statusPollIntervalSeconds = 5, imagesPerSession = 4, think = 15,
maxWorkers = 10, safety = 0, burst = 2 yields statusChecksPerGeneration = 6,
cycleTimeSeconds = 45, maxSupportedUsers = 15, workerLimitedTPS = 1,
runTPS = 1 and runTPSBurst = 1: the worker-cap floor of 1 dominates. -/
theorem calculateTPS_concrete_scenario :
    (calculateTPS ⟨30, 5, 4, some 15, some 0, some 2, 10⟩).details.metrics.statusChecksPerGeneration = 6 ∧
    (calculateTPS ⟨30, 5, 4, some 15, some 0, some 2, 10⟩).details.metrics.cycleTimeSeconds = 45 ∧
    (calculateTPS ⟨30, 5, 4, some 15, some 0, some 2, 10⟩).details.metrics.maxSupportedUsers = 15 ∧
    (calculateTPS ⟨30, 5, 4, some 15, some 0, some 2, 10⟩).details.metrics.workerLimitedTPS = 1 ∧
    (calculateTPS ⟨30, 5, 4, some 15, some 0, some 2, 10⟩).limits.runTPS = 1 ∧
    (calculateTPS ⟨30, 5, 4, some 15, some 0, some 2, 10⟩).limits.runTPSBurst = 1 := by
  refine ⟨?_, ?_, ?_, ?_, ?_, ?_⟩ <;>
    · simp only [calculateTPS, toFixed2]
      norm_num [round_eq]

/-- Claim C3: for every input (in particular every valid one), each of the
four returned limits — runTPS, statusTPS, runTPSBurst, statusTPSBurst — is
at least 1, because the code floors each of them at 1. -/
theorem calculateTPS_limits_ge_one (g s i : ℚ) (t sa b : Option ℚ) (w : ℚ) :
    1 ≤ (calculateTPS ⟨g, s, i, t, sa, b, w⟩).limits.runTPS ∧
    1 ≤ (calculateTPS ⟨g, s, i, t, sa, b, w⟩).limits.statusTPS ∧
    1 ≤ (calculateTPS ⟨g, s, i, t, sa, b, w⟩).limits.runTPSBurst ∧
    1 ≤ (calculateTPS ⟨g, s, i, t, sa, b, w⟩).limits.statusTPSBurst := by
  rw [calculateTPS_runTPS, calculateTPS_statusTPS, calculateTPS_runTPSBurst,
    calculateTPS_statusTPSBurst]
  exact ⟨le_max_left _ _, le_max_left _ _, le_max_left _ _, le_max_left _ _⟩

/-- Claim C7: calculateTPS is deterministic and round-trip stable — running
it again on the inputs field of its own result (which carries the defaulted
values) reproduces the identical result. -/
theorem calculateTPS_roundtrip (p : TPSCalculationParams) :
    calculateTPS (calculateTPS p).inputs = calculateTPS p := rfl

/-- Claim C4, as stated, is false: with generationTimeSeconds = 1,
imagesPerSession = 1, think = 0, safety = 0, burst = 1, maxWorkers = 1,
raising statusPollIntervalSeconds from 1 to 2 leaves the returned
statusTPS at 1 (both pre-rounding values, 1 and 1/2, clamp up to the floor
of 1), so the returned pollRate does not strictly decrease. -/
theorem calculateTPS_pollRate_strict_cex :
    ValidParams ⟨1, 1, 1, some 0, some 0, some 1, 1⟩ ∧
    ValidParams ⟨1, 2, 1, some 0, some 0, some 1, 1⟩ ∧
    ¬((calculateTPS ⟨1, 2, 1, some 0, some 0, some 1, 1⟩).limits.statusTPS <
      (calculateTPS ⟨1, 1, 1, some 0, some 0, some 1, 1⟩).limits.statusTPS) := by
  refine ⟨by unfold ValidParams; norm_num, by unfold ValidParams; norm_num, ?_⟩
  rw [calculateTPS_statusTPS, calculateTPS_statusTPS]
  norm_num [toFixed2, round_eq]

/-- Claim C4 (amended): raising statusPollIntervalSeconds, other inputs
fixed, strictly decreases the pre-rounding poll rate (per-user status call
rate times supported users times safety multiplier, all as recorded in the
returned details) and never increases the returned (rounded, floored-at-1)
statusTPS; the returned value can stay equal. -/
theorem calculateTPS_pollRate_antitone (g i : ℚ) (t sa b : Option ℚ) (w : ℚ)
    (s₁ s₂ : ℚ) (hg : 0 < g) (hi : 0 < i) (hw : 0 < w)
    (ht : 0 ≤ t.getD 15) (hsa : 0 ≤ sa.getD 0)
    (hs₁ : 0 < s₁) (hs : s₁ < s₂) :
    (calculateTPS ⟨g, s₂, i, t, sa, b, w⟩).limits.statusTPS ≤
      (calculateTPS ⟨g, s₁, i, t, sa, b, w⟩).limits.statusTPS ∧
    (calculateTPS ⟨g, s₂, i, t, sa, b, w⟩).details.multipliers.statusCallsPerSecondPerUser *
        (calculateTPS ⟨g, s₂, i, t, sa, b, w⟩).details.metrics.maxSupportedUsers *
        (1 + (calculateTPS ⟨g, s₂, i, t, sa, b, w⟩).details.safetyFactor / 100) <
      (calculateTPS ⟨g, s₁, i, t, sa, b, w⟩).details.multipliers.statusCallsPerSecondPerUser *
        (calculateTPS ⟨g, s₁, i, t, sa, b, w⟩).details.metrics.maxSupportedUsers *
        (1 + (calculateTPS ⟨g, s₁, i, t, sa, b, w⟩).details.safetyFactor / 100) := by
  rw [calculateTPS_statusTPS, calculateTPS_statusTPS, calculateTPS_statusPerUser,
    calculateTPS_statusPerUser, calculateTPS_maxSupportedUsers,
    calculateTPS_maxSupportedUsers, calculateTPS_safetyFactor, calculateTPS_safetyFactor]
  have hper : ∀ sp : ℚ, i * (g / sp) / (i * g) = 1 / sp := by
    intro sp
    rw [mul_div_mul_left _ _ (ne_of_gt hi), div_div, mul_comm, ← div_div,
      div_self (ne_of_gt hg)]
  rw [hper s₁, hper s₂]
  have hgt : 0 < g + t.getD 15 := by linarith
  have hU : 0 < w / (g / (g + t.getD 15)) := div_pos hw (div_pos hg hgt)
  have hS : 0 < 1 + sa.getD 0 / 100 := by linarith
  have h12 : 1 / s₂ < 1 / s₁ := one_div_lt_one_div_of_lt hs₁ hs
  have hstrict : 1 / s₂ * (w / (g / (g + t.getD 15))) * (1 + sa.getD 0 / 100) <
      1 / s₁ * (w / (g / (g + t.getD 15))) * (1 + sa.getD 0 / 100) :=
    mul_lt_mul_of_pos_right (mul_lt_mul_of_pos_right h12 hU) hS
  exact ⟨max_le_max le_rfl (toFixed2_mono (le_of_lt hstrict)), hstrict⟩

/-- Claim C5: the returned runTPS is monotone non-decreasing in maxWorkers,
other inputs fixed: both the user-demand term and the worker-imposed
ceiling rise with the worker count. -/
theorem calculateTPS_runTPS_mono_workers (g s i : ℚ) (t sa b : Option ℚ)
    (w₁ w₂ : ℚ) (hg : 0 < g) (hs : 0 < s) (hi : 0 < i)
    (ht : 0 ≤ t.getD 15) (hsa : 0 ≤ sa.getD 0) (hw₁ : 0 < w₁) (hw : w₁ ≤ w₂) :
    (calculateTPS ⟨g, s, i, t, sa, b, w₁⟩).limits.runTPS ≤
      (calculateTPS ⟨g, s, i, t, sa, b, w₂⟩).limits.runTPS := by
  rw [calculateTPS_runTPS, calculateTPS_runTPS]
  apply max_le_max le_rfl
  apply toFixed2_mono
  have hgt : 0 < g + t.getD 15 := by linarith
  have hD : 0 < g / (g + t.getD 15) := div_pos hg hgt
  have hru : 0 ≤ i / (i * g) := le_of_lt (div_pos hi (mul_pos hi hg))
  have hS : 0 ≤ 1 + sa.getD 0 / 100 := by linarith
  apply min_le_min
  · apply mul_le_mul_of_nonneg_right _ hS
    apply mul_le_mul_of_nonneg_left _ hru
    exact (div_le_div_iff_of_pos_right hD).mpr hw
  · exact max_le_max ((div_le_div_iff_of_pos_right hg).mpr hw) le_rfl

/-- Witness for claim C5 at the concrete pair maxWorkers = 10 and
maxWorkers = 20, the other inputs being the spec's concrete scenario. -/
theorem calculateTPS_runTPS_mono_workers_witness :
    (calculateTPS ⟨30, 5, 4, some 15, some 0, some 2, 10⟩).limits.runTPS ≤
      (calculateTPS ⟨30, 5, 4, some 15, some 0, some 2, 20⟩).limits.runTPS :=
  calculateTPS_runTPS_mono_workers 30 5 4 (some 15) (some 0) (some 2) 10 20
    (by norm_num) (by norm_num) (by norm_num) (by simp) (by simp)
    (by norm_num) (by norm_num)

/-- Claim C9: the four returned limits do not depend on imagesPerSession —
it cancels when the per-session call counts are divided by the session
duration — so two valid inputs differing only there get identical limits. -/
theorem calculateTPS_limits_indep_images (g s : ℚ) (t sa b : Option ℚ) (w : ℚ)
    (i₁ i₂ : ℚ) (hi₁ : i₁ ≠ 0) (hi₂ : i₂ ≠ 0) :
    (calculateTPS ⟨g, s, i₁, t, sa, b, w⟩).limits =
      (calculateTPS ⟨g, s, i₂, t, sa, b, w⟩).limits := by
  have erun : ∀ j : ℚ, j ≠ 0 → j / (j * g) = 1 / g := by
    intro j hj
    rw [div_mul_eq_div_div, div_self hj]
  have estat : ∀ j : ℚ, j ≠ 0 → j * (g / s) / (j * g) = g / s / g :=
    fun j hj => mul_div_mul_left _ _ hj
  rw [calculateTPS_limits_def, calculateTPS_limits_def, erun i₁ hi₁, erun i₂ hi₂,
    estat i₁ hi₁, estat i₂ hi₂]

/-- Witness for claim C9 at the concrete pair imagesPerSession = 4 and
imagesPerSession = 8. -/
theorem calculateTPS_limits_indep_images_witness :
    (calculateTPS ⟨30, 5, 4, some 15, some 0, some 2, 10⟩).limits =
      (calculateTPS ⟨30, 5, 8, some 15, some 0, some 2, 10⟩).limits :=
  calculateTPS_limits_indep_images 30 5 (some 15) (some 0) (some 2) 10 4 8
    (by norm_num) (by norm_num)

/-- Claim C10: the inputs field of the result echoes the caller's input with
the omitted optional fields replaced by their defaults
(averageThinkTimeSeconds = 15, safetyFactorPercent = 0,
burstTrafficMultiplier = 2) and every explicitly supplied field unchanged. -/
theorem calculateTPS_inputs_echo (p : TPSCalculationParams) :
    (calculateTPS p).inputs =
      { generationTimeSeconds := p.generationTimeSeconds
        statusPollIntervalSeconds := p.statusPollIntervalSeconds
        imagesPerSession := p.imagesPerSession
        averageThinkTimeSeconds := some (p.averageThinkTimeSeconds.getD 15)
        safetyFactorPercent := some (p.safetyFactorPercent.getD 0)
        burstTrafficMultiplier := some (p.burstTrafficMultiplier.getD 2)
        maxWorkers := p.maxWorkers } := rfl

/-- Claim C6, as stated, is false: at generationTimeSeconds = 250,
statusPollIntervalSeconds = 250, imagesPerSession = 1, think = 0,
safety = 0, burst = 1, maxWorkers = 499 — a valid input — both pre-rounding
rates are 1.996, so the returned steady rates round up to 2 while the burst
rates floor the pre-rounding 1.996 to 1: the burst rate is neither the
floor nor the ceiling of the returned steady rate. -/
theorem calculateTPS_burst_one_cex :
    ValidParams ⟨250, 250, 1, some 0, some 0, some 1, 499⟩ ∧
    (calculateTPS ⟨250, 250, 1, some 0, some 0, some 1, 499⟩).limits.runTPS = 2 ∧
    (calculateTPS ⟨250, 250, 1, some 0, some 0, some 1, 499⟩).limits.runTPSBurst = 1 ∧
    (calculateTPS ⟨250, 250, 1, some 0, some 0, some 1, 499⟩).limits.statusTPS = 2 ∧
    (calculateTPS ⟨250, 250, 1, some 0, some 0, some 1, 499⟩).limits.statusTPSBurst = 1 ∧
    (calculateTPS ⟨250, 250, 1, some 0, some 0, some 1, 499⟩).limits.runTPSBurst ≠
      ((⌊(calculateTPS ⟨250, 250, 1, some 0, some 0, some 1, 499⟩).limits.runTPS⌋ : ℤ) : ℚ) ∧
    (calculateTPS ⟨250, 250, 1, some 0, some 0, some 1, 499⟩).limits.runTPSBurst ≠
      ((⌈(calculateTPS ⟨250, 250, 1, some 0, some 0, some 1, 499⟩).limits.runTPS⌉ : ℤ) : ℚ) ∧
    (calculateTPS ⟨250, 250, 1, some 0, some 0, some 1, 499⟩).limits.statusTPSBurst ≠
      ((⌊(calculateTPS ⟨250, 250, 1, some 0, some 0, some 1, 499⟩).limits.statusTPS⌋ : ℤ) : ℚ) := by
  refine ⟨by unfold ValidParams; norm_num, ?_, ?_, ?_, ?_, ?_, ?_, ?_⟩ <;>
    · simp only [calculateTPS, toFixed2]
      norm_num [round_eq]

/-- Claim C6 (amended): with burstTrafficMultiplier = 1 the burst rates
collapse to the floor, clamped below at 1, of the PRE-rounding steady
rates (per-user rate times supported users times safety multiplier, capped
by the worker ceiling for the run class), which can differ from the floor
of the returned two-decimal-rounded steady rates. -/
theorem calculateTPS_burst_one (g s i : ℚ) (t sa : Option ℚ) (w : ℚ) :
    (calculateTPS ⟨g, s, i, t, sa, some 1, w⟩).limits.runTPSBurst =
      max 1 ((⌊min
        ((calculateTPS ⟨g, s, i, t, sa, some 1, w⟩).details.multipliers.runCallsPerSecondPerUser *
          (calculateTPS ⟨g, s, i, t, sa, some 1, w⟩).details.metrics.maxSupportedUsers *
          (1 + (calculateTPS ⟨g, s, i, t, sa, some 1, w⟩).details.safetyFactor / 100))
        ((calculateTPS ⟨g, s, i, t, sa, some 1, w⟩).details.metrics.workerLimitedTPS)⌋ : ℚ)) ∧
    (calculateTPS ⟨g, s, i, t, sa, some 1, w⟩).limits.statusTPSBurst =
      max 1 ((⌊(calculateTPS ⟨g, s, i, t, sa, some 1, w⟩).details.multipliers.statusCallsPerSecondPerUser *
        (calculateTPS ⟨g, s, i, t, sa, some 1, w⟩).details.metrics.maxSupportedUsers *
        (1 + (calculateTPS ⟨g, s, i, t, sa, some 1, w⟩).details.safetyFactor / 100)⌋ : ℚ)) := by
  rw [calculateTPS_runTPSBurst, calculateTPS_statusTPSBurst, calculateTPS_runPerUser,
    calculateTPS_statusPerUser, calculateTPS_maxSupportedUsers,
    calculateTPS_workerLimitedTPS, calculateTPS_safetyFactor]
  simp only [Option.getD_some, mul_one]
  constructor
  · rw [min_comm
      (i / (i * g) * (w / (g / (g + t.getD 15))) * (1 + sa.getD 0 / 100))
      (max (w / g) 1), ← min_assoc, min_self]
  · trivial

/-- Claim C8, as stated, is false: a malformed request body (one on which
JSON.parse throws) lands in the catch block and yields status 500, a server
error, not the client error (4xx) the claim asserts. -/
theorem handler_malformed_cex :
    (handler 0 ParsedBody.malformed (PresignOutcome.ok "u" [])).statusCode = 500 ∧
    ¬(400 ≤ (handler 0 ParsedBody.malformed (PresignOutcome.ok "u" [])).statusCode ∧
      (handler 0 ParsedBody.malformed (PresignOutcome.ok "u" [])).statusCode < 500) := by
  constructor
  · rfl
  · intro h
    simp [handler] at h

/-- Claim C8 (amended): a malformed body yields the generic server error
(500); a present body missing fileName or fileType (or with either empty)
yields 400; a fileType outside the allow-list yields 400; only requests
passing both checks reach the pre-signed-post generation, returning 200 on
success and the generic 500 on an internal presign failure; and an upload
authorization is issued exactly on the 200 path. -/
theorem handler_validation (now : Nat) (body : ParsedBody) (presign : PresignOutcome) :
    ((handler now body presign).statusCode = 400 ↔
      body ≠ ParsedBody.malformed ∧ validUploadRequest body = false) ∧
    ((handler now body presign).statusCode = 500 ↔
      (body = ParsedBody.malformed ∨
        (validUploadRequest body = true ∧ presignFailed presign = true))) ∧
    ((handler now body presign).statusCode = 200 ↔
      (validUploadRequest body = true ∧ presignFailed presign = false)) ∧
    (issuesUpload (handler now body presign) = true ↔
      (handler now body presign).statusCode = 200) := by
  rcases body with _ | ⟨n, t⟩ <;> rcases presign with ⟨u, f⟩ | m
  · simp [handler, validUploadRequest, issuesUpload, presignFailed]
  · simp [handler, validUploadRequest, issuesUpload, presignFailed]
  · by_cases h1 : (falsyString n || falsyString t) = true
    · simp [handler, validUploadRequest, issuesUpload, presignFailed, h1]
    · by_cases h2 : t.getD "" ∈ ALLOWED_FILE_TYPES
      · simp [handler, validUploadRequest, issuesUpload, presignFailed, h1, h2]
      · simp [handler, validUploadRequest, issuesUpload, presignFailed, h1, h2]
  · by_cases h1 : (falsyString n || falsyString t) = true
    · simp [handler, validUploadRequest, issuesUpload, presignFailed, h1]
    · by_cases h2 : t.getD "" ∈ ALLOWED_FILE_TYPES
      · simp [handler, validUploadRequest, issuesUpload, presignFailed, h1, h2]
      · simp [handler, validUploadRequest, issuesUpload, presignFailed, h1, h2]

/-- Witness for claim C4 at the concrete pair statusPollIntervalSeconds = 5
and statusPollIntervalSeconds = 10, the other inputs being the spec's
concrete scenario. -/
theorem calculateTPS_pollRate_antitone_witness :
    (calculateTPS ⟨30, 10, 4, some 15, some 0, some 2, 10⟩).limits.statusTPS ≤
      (calculateTPS ⟨30, 5, 4, some 15, some 0, some 2, 10⟩).limits.statusTPS ∧
    (calculateTPS ⟨30, 10, 4, some 15, some 0, some 2, 10⟩).details.multipliers.statusCallsPerSecondPerUser *
        (calculateTPS ⟨30, 10, 4, some 15, some 0, some 2, 10⟩).details.metrics.maxSupportedUsers *
        (1 + (calculateTPS ⟨30, 10, 4, some 15, some 0, some 2, 10⟩).details.safetyFactor / 100) <
      (calculateTPS ⟨30, 5, 4, some 15, some 0, some 2, 10⟩).details.multipliers.statusCallsPerSecondPerUser *
        (calculateTPS ⟨30, 5, 4, some 15, some 0, some 2, 10⟩).details.metrics.maxSupportedUsers *
        (1 + (calculateTPS ⟨30, 5, 4, some 15, some 0, some 2, 10⟩).details.safetyFactor / 100) :=
  calculateTPS_pollRate_antitone 30 4 (some 15) (some 0) (some 2) 10 5 10
    (by norm_num) (by norm_num) (by norm_num) (by simp) (by simp)
    (by norm_num) (by norm_num)
